import Mathlib

/-!
Verification of the static-site scripts of this repository.

The repository has two independent scripts:

* `main.py` (PageRenderer): reads Markdown files from `./knowledge`, renders
  them to HTML with a configured markdown-it parser, wraps the fragment in a
  fixed page template, and writes the result into `./notes`.
* ImagePathRewriter: walks a directory tree and rewrites image references
  whose path starts with `static/` to root-relative paths.

`main.py` is embedded below definition by definition.  The third-party
markdown renderer (package `markdown_it`) and the ImagePathRewriter script
are not part of the provided sources; they are modelled from the
specification where a claim needs them, and each such definition is marked
`Modelled from the spec:` in its doc comment.

The filesystem is modelled explicitly: an association list of input files
(keyed by full path), a flag telling whether the output directory exists,
and an association list of output files.  `md_to_html` becomes a function
from a filesystem state and page parameters to a new filesystem state
together with an optional error, mirroring the Python statement order:
read the input file, render, then check the output directory, then write.
-/

set_option autoImplicit false

namespace SiteGen

/-! ## Parser configuration (source lines 28–33)

`MarkdownIt('commonmark', {'breaks':True,'html':True})
   .use(front_matter_plugin).use(footnote_plugin).enable('table')` -/

/-- Configuration state of a `MarkdownIt` parser instance: the preset name,
the `breaks` and `html` options, which plugins were installed via `.use`,
and which extra rules were switched on via `.enable`. -/
structure MdConfig where
  preset : String
  breaks : Bool
  html : Bool
  front_matter : Bool
  footnote : Bool
  enabledRules : List String
deriving DecidableEq

/-- `MarkdownIt(preset, {'breaks':…,'html':…})`: a fresh parser instance.
With the `commonmark` preset no plugins are installed and no extra rules
(in particular not `table`) are enabled. -/
def MarkdownIt (preset : String) (breaks html : Bool) : MdConfig :=
  { preset := preset, breaks := breaks, html := html,
    front_matter := false, footnote := false, enabledRules := [] }

/-- `.use(front_matter_plugin)` -/
def MdConfig.use_front_matter (c : MdConfig) : MdConfig :=
  { c with front_matter := true }

/-- `.use(footnote_plugin)` -/
def MdConfig.use_footnote (c : MdConfig) : MdConfig :=
  { c with footnote := true }

/-- `.enable(rule)` -/
def MdConfig.enable (c : MdConfig) (rule : String) : MdConfig :=
  { c with enabledRules := c.enabledRules ++ [rule] }

/-- The parser built in `md_to_html` (source lines 28–33). -/
def md : MdConfig :=
  (((MarkdownIt "commonmark" true true).use_front_matter).use_footnote).enable "table"

/-! ## A modelled markdown renderer

The real renderer is the third-party `markdown_it` library, whose source is
not part of this repository.  The fragment of its behaviour that the
specification relies on is modelled here: ATX `#` headings, paragraphs, and
pipe-delimited tables, the latter rendered as an HTML `<table>` structure
only when the `table` rule is enabled (it is off under the `commonmark`
preset). -/

/-- Split a character list at every occurrence of the separator. -/
def splitOnChar (sep : Char) : List Char → List (List Char)
  | [] => [[]]
  | c :: cs =>
    if c = sep then [] :: splitOnChar sep cs
    else
      match splitOnChar sep cs with
      | [] => [[c]]
      | g :: gs => (c :: g) :: gs

/-- Group a list of lines into blocks separated by blank lines. -/
def groupBlocks : List (List Char) → List (List (List Char))
  | [] => [[]]
  | l :: ls =>
    if l = [] then [] :: groupBlocks ls
    else
      match groupBlocks ls with
      | [] => [[l]]
      | b :: bs => (l :: b) :: bs

/-- Concatenate a list of character lists. -/
def joinChars : List (List Char) → List Char
  | [] => []
  | l :: ls => l ++ joinChars ls

/-- Interpose a separator between character lists. -/
def joinWith (sep : List Char) : List (List Char) → List Char
  | [] => []
  | [l] => l
  | l :: ls => l ++ sep ++ joinWith sep ls

/-- Strip spaces from both ends of a cell. -/
def trimCell (l : List Char) : List Char :=
  ((l.dropWhile (fun c => c = ' ')).reverse.dropWhile (fun c => c = ' ')).reverse

/-- The cells of a pipe-delimited table row: split on `|`, drop the empty
leading and trailing fields produced by the outer pipes, trim each cell. -/
def rowCells (row : List Char) : List (List Char) :=
  let fields := splitOnChar '|' row
  let fields := match fields with
    | [] :: rest => rest
    | other => other
  let fields := match fields.reverse with
    | [] :: rest => rest.reverse
    | _ => fields
  fields.map trimCell

/-- Is this line a table delimiter row (only `|`, `-`, `:` and spaces, with
at least one dash)? -/
def isDelimiterRow (l : List Char) : Bool :=
  !l.isEmpty && l.all (fun c => c == '|' || c == '-' || c == ':' || c == ' ')
    && l.any (fun c => c == '-')

/-- Render one table cell with the given tag. -/
def renderCell (tag : List Char) (cell : List Char) : List Char :=
  '<' :: tag ++ '>' :: cell ++ '<' :: '/' :: tag ++ ['>', '\n']

/-- Render a pipe table in markdown-it style:
header row, delimiter row, then body rows. -/
def renderTable (header : List Char) (body : List (List Char)) : List Char :=
  "<table>\n<thead>\n<tr>\n".data
    ++ joinChars ((rowCells header).map (renderCell ['t', 'h']))
    ++ "</tr>\n</thead>\n<tbody>\n".data
    ++ joinChars (body.map (fun r =>
         "<tr>\n".data ++ joinChars ((rowCells r).map (renderCell ['t', 'd'])) ++ "</tr>\n".data))
    ++ "</tbody>\n</table>\n".data

/-- Render one block: an ATX heading, a pipe table (only when the `table`
rule is enabled), or a paragraph.  With `breaks` on, soft line breaks inside
a paragraph render as `<br>` line breaks. -/
def renderBlock (cfg : MdConfig) (block : List (List Char)) : List Char :=
  match block with
  | [] => []
  | first :: rest =>
    if first.take 2 = ['#', ' '] then
      "<h1>".data ++ first.drop 2 ++ "</h1>\n".data ++ joinChars (rest.map (fun _ => []))
    else if cfg.enabledRules.contains "table"
        && first.take 1 == ['|']
        && (match rest with | d :: _ => isDelimiterRow d | [] => false) then
      renderTable first (rest.drop 1)
    else
      "<p>".data
        ++ joinWith (if cfg.breaks then "<br>\n".data else ['\n']) (first :: rest)
        ++ "</p>\n".data

/-- Modelled from the spec: `md.render(text)` of the third-party
`markdown_it` renderer, whose source is not part of this repository.
Covers the fragment the specification exercises: `#` headings, paragraphs
(soft breaks as line breaks when `breaks` is on), and pipe-delimited tables
rendered as an HTML `<table>` structure only when the non-default `table`
rule has been enabled. -/
def MdConfig.render (cfg : MdConfig) (text : String) : String :=
  let blocks := (groupBlocks (splitOnChar '\n' text.data)).filter (fun b => b ≠ [])
  ⟨joinChars (blocks.map (renderBlock cfg))⟩

/-! ## The page template (source lines 8–17) -/

/-- `generate_page(html_text, title, description)`: the f-string template of
source lines 9–17, translated literally (each interpolation becomes a string
append). -/
def generate_page (html_text title description : String) : String :=
  "<title>" ++ title
    ++ "</title>\n<meta name=\"description\" content=\"" ++ description
    ++ "\">\n<meta name=\"viewport\" content=\"width=device-width, initial-scale=1\">\n<link rel=\"stylesheet\" href=\"style/github-markdown.css\">\n<link rel=\"stylesheet\" href=\"style/format.css\">\n<article class=\"markdown-body\">\n"
    ++ html_text ++ "\n</article>\n"

/-! ## Filesystem model and `md_to_html` (source lines 19–48) -/

def input_folder : String := "./knowledge"

def output_folder : String := "./notes"

/-- A page request from the configuration list: `{file, title, description}`. -/
structure PageParams where
  file : String
  title : String
  description : String
deriving DecidableEq

/-- The filesystem as far as the script touches it: the readable files
(keyed by full path), whether the output directory exists, and the files of
the output directory (keyed by full path; a later write shadows an earlier
entry, like `open(…, 'w')`). -/
structure FS where
  inputFiles : List (String × String)
  outputDirExists : Bool
  outputFiles : List (String × String)
deriving DecidableEq

/-- First-match association-list lookup (the file a given path denotes). -/
def fsLookup : List (String × String) → String → Option String
  | [], _ => none
  | (k, v) :: rest, key => if k = key then some v else fsLookup rest key

/-- The errors `md_to_html` can raise: `FileNotFoundError` from `open` on a
missing input file, and the explicit `ValueError` of source line 39 when the
output directory does not exist. -/
inductive RenderError where
  | missingInputFile (path : String)
  | missingOutputDirectory (path : String)
deriving DecidableEq

/-- Python's `file[:-3]`: the string without its last three characters
(empty when the string has at most three). -/
def sliceToMinus3 (s : String) : String :=
  ⟨s.data.take (s.data.length - 3)⟩

/-- `md_to_html(page_params)` (source lines 22–43), in source order:
open and read `./knowledge/<file>` (raising if absent), build the parser,
render, build the page, then check that the output directory exists
(raising `ValueError` if not), and only then write
`./notes/<file[:-3]>.html`. -/
def md_to_html (fs : FS) (p : PageParams) : FS × Option RenderError :=
  let file := p.file
  match fsLookup fs.inputFiles (input_folder ++ "/" ++ file) with
  | none => (fs, some (RenderError.missingInputFile (input_folder ++ "/" ++ file)))
  | some text =>
    let html_text := md.render text
    let output := generate_page html_text p.title p.description
    if fs.outputDirExists = false then
      (fs, some (RenderError.missingOutputDirectory output_folder))
    else
      ({ fs with outputFiles :=
           (output_folder ++ "/" ++ sliceToMinus3 file ++ ".html", output) :: fs.outputFiles },
       none)

/-- The hardcoded page list (source line 45). -/
def files : List PageParams :=
  [{ file := "brokers.md", title := "Message Queue", description := "message queues" }]

/-- The main loop (source lines 47–48): render each configured page in
order; an uncaught exception aborts the run. -/
def runList : List PageParams → FS → FS × Option RenderError
  | [], fs => (fs, none)
  | p :: ps, fs =>
    match md_to_html fs p with
    | (fs', none) => runList ps fs'
    | (fs', some e) => (fs', some e)

/-- Running the whole script against a filesystem state. -/
def runMain (fs : FS) : FS × Option RenderError :=
  runList files fs

/-! ## The template as the spec describes it

A second set of definitions following the specification's words (§4.1, §6):
the fixed template consists of a `<title>` element, a description meta tag,
a viewport meta tag, two stylesheet links at fixed relative paths in order,
and the fragment inside an `<article>` element with a fixed class name.
Comparing `generate_page` with `specTemplate` settles the
character-for-character template claim. -/

def titleElement (t : String) : String := "<title>" ++ t ++ "</title>"

def descriptionMeta (d : String) : String :=
  "<meta name=\"description\" content=\"" ++ d ++ "\">"

def viewportMeta : String :=
  "<meta name=\"viewport\" content=\"width=device-width, initial-scale=1\">"

def stylesheetLink (href : String) : String :=
  "<link rel=\"stylesheet\" href=\"" ++ href ++ "\">"

def articleWrap (fragment : String) : String :=
  "<article class=\"markdown-body\">\n" ++ fragment ++ "\n</article>"

/-- The page template assembled from the spec's enumerated parts, each on
its own line. -/
def specTemplate (fragment t d : String) : String :=
  titleElement t ++ "\n" ++ descriptionMeta d ++ "\n" ++ viewportMeta ++ "\n"
    ++ stylesheetLink "style/github-markdown.css" ++ "\n"
    ++ stylesheetLink "style/format.css" ++ "\n"
    ++ articleWrap fragment ++ "\n"

/-! ## Constants around the verbatim `title` and `description` insertions -/

/-- The template text before the title insertion point. -/
def beforeTitle : String := "<title>"

/-- The template text between the title and description insertion points. -/
def betweenTitleAndDescription : String :=
  "</title>\n<meta name=\"description\" content=\""

/-- The template text after the description insertion point (it carries the
html fragment but does not depend on title or description). -/
def afterDescription (html_text : String) : String :=
  "\">\n<meta name=\"viewport\" content=\"width=device-width, initial-scale=1\">\n<link rel=\"stylesheet\" href=\"style/github-markdown.css\">\n<link rel=\"stylesheet\" href=\"style/format.css\">\n<article class=\"markdown-body\">\n"
    ++ html_text ++ "\n</article>\n"

end SiteGen

namespace Rewriter

/-!
## ImagePathRewriter

Modelled from the spec: the ImagePathRewriter script is not among the
provided sources.  Per the specification it substitutes, in one pass over
the text, every match of the Python regular expression
`!\[(.*?)\]\(static/(.*?)\)` (image syntax whose path begins with the
literal `static/`; alt text and rest-of-path are "any characters,
non-greedy") by `![<altText>](/<restOfPath>)`.  The matcher below follows
Python `re` semantics for this pattern: leftmost match, the dot does not
match a newline, the lazy groups take the shortest text that lets the
remainder of the pattern match (growing on backtracking).
-/

/-- Match the lazy `(.*?)\]\(static/` part: consume the shortest run of
non-newline characters up to a `]` that is followed by the literal
`(static/`; return the consumed alt text and the text after `(static/`.
On backtracking the `]` itself can be consumed by the lazy group. -/
def findAlt : List Char → Option (List Char × List Char)
  | [] => none
  | c :: cs =>
    if c = '\n' then none
    else
      let extended : Option (List Char × List Char) :=
        match findAlt cs with
        | some (alt, rest) => some (c :: alt, rest)
        | none => none
      if c = ']' then
        match cs with
        | '(' :: 's' :: 't' :: 'a' :: 't' :: 'i' :: 'c' :: '/' :: rest => some ([], rest)
        | _ => extended
      else extended

/-- Match the lazy `(.*?)\)` part: the shortest run of non-newline
characters up to a `)`; return it and the text after the `)`. -/
def findRest : List Char → Option (List Char × List Char)
  | [] => none
  | c :: cs =>
    if c = ')' then some ([], cs)
    else if c = '\n' then none
    else
      match findRest cs with
      | some (r, rem) => some (c :: r, rem)
      | none => none

/-- Try the whole pattern at the head of the text: on success return the
two captured groups and the text after the match. -/
def matchImage : List Char → Option (List Char × List Char × List Char)
  | '!' :: '[' :: t =>
    match findAlt t with
    | some (alt, afterStatic) =>
      match findRest afterStatic with
      | some (rest, rem) => some (alt, rest, rem)
      | none => none
    | none => none
  | _ => none

/-- `re.sub` scan: at each position try the pattern; on a match emit the
replacement `![<alt>](/<rest>)` and continue after the match, otherwise
copy one character.  The fuel argument (instantiated with the text length)
only serves termination; every step consumes at least one character. -/
def subScan : Nat → List Char → List Char
  | 0, l => l
  | _ + 1, [] => []
  | fuel + 1, c :: cs =>
    match matchImage (c :: cs) with
    | some (alt, rest, rem) =>
      "![".data ++ alt ++ "](/".data ++ rest ++ ')' :: subScan fuel rem
    | none => c :: subScan fuel cs

/-- Modelled from the spec: the pure text transform of ImagePathRewriter,
`re.sub` of `!\[(.*?)\]\(static/(.*?)\)` with `![\1](/\2)` over the whole
file text. -/
def rewriteImagePaths (text : String) : String :=
  ⟨subScan text.data.length text.data⟩

/-- Does the pattern match anywhere in the text? -/
def hasImageMatch : List Char → Bool
  | [] => false
  | c :: cs => (matchImage (c :: cs)).isSome || hasImageMatch cs

end Rewriter

/-! # Helper lemmas -/

namespace SiteGen

/-- Looking up the key just written returns the written value. -/
theorem fsLookup_cons_self (k v : String) (rest : List (String × String)) :
    fsLookup ((k, v) :: rest) k = some v := by
  simp [fsLookup]

/-- `file[:-3]` of a name ending in `.md` is the name without the extension. -/
theorem sliceToMinus3_append_md (b : String) : sliceToMinus3 (b ++ ".md") = b := by
  apply String.ext
  simp [sliceToMinus3, String.data_append]

/-- Successful run of `md_to_html`: when the input file is readable and the
output directory exists, the rendered page is written under the sliced-name
key and no error is raised. -/
theorem md_to_html_found (fs : FS) (p : PageParams) (text : String)
    (hL : fsLookup fs.inputFiles (input_folder ++ "/" ++ p.file) = some text)
    (hD : fs.outputDirExists = true) :
    md_to_html fs p =
      ({ fs with outputFiles :=
           (output_folder ++ "/" ++ sliceToMinus3 p.file ++ ".html",
            generate_page (md.render text) p.title p.description) :: fs.outputFiles },
       none) := by
  simp [md_to_html, hL, hD]

/-- The content written by `md_to_html` at the derived output path. -/
def writtenFile (fs : FS) (p : PageParams) : Option String :=
  fsLookup (md_to_html fs p).1.outputFiles
    (output_folder ++ "/" ++ sliceToMinus3 p.file ++ ".html")

end SiteGen

namespace Rewriter

/-- A text without any pattern match is returned unchanged by the scan. -/
theorem subScan_of_no_match :
    ∀ (l : List Char), hasImageMatch l = false → ∀ fuel, subScan fuel l = l := by
  intro l
  induction l with
  | nil => intro _ fuel; cases fuel <;> rfl
  | cons c cs ih =>
    intro h fuel
    have hm : matchImage (c :: cs) = none := by
      cases hmc : matchImage (c :: cs) with
      | none => rfl
      | some v => simp [hasImageMatch, hmc] at h
    have hrest : hasImageMatch cs = false := by
      simp [hasImageMatch, hm] at h
      simpa using h
    cases fuel with
    | zero => rfl
    | succ fuel => simp [subScan, hm, ih hrest fuel]

/-- A text without any pattern match is a fixed point of the rewriter. -/
theorem rewrite_of_no_match (t : String) (h : hasImageMatch t.data = false) :
    rewriteImagePaths t = t := by
  unfold rewriteImagePaths
  rw [subScan_of_no_match t.data h]

end Rewriter

/-! # Claims -/

set_option maxRecDepth 10000

namespace SiteGen

/-- Claim C1, counterexample: with the output directory absent, `md_to_html`
does not always fail with the `ValueError` of line 39.  When the input file
is also missing, the `open` on line 25 raises `FileNotFoundError` first, so
the error is not the configuration error the claim promises. -/
theorem md_to_html_missing_dir_counterexample :
    (FS.mk [] false []).outputDirExists = false ∧
    (md_to_html (FS.mk [] false [])
        (PageParams.mk "brokers.md" "Message Queue" "message queues")).2 ≠
      some (RenderError.missingOutputDirectory output_folder) ∧
    (md_to_html (FS.mk [] false [])
        (PageParams.mk "brokers.md" "Message Queue" "message queues")).2 =
      some (RenderError.missingInputFile "./knowledge/brokers.md") := by
  refine ⟨rfl, ?_, rfl⟩
  decide

/-- Claim C1, amended: whenever the output directory `./notes` does not
exist, `md_to_html` fails (with some error) and performs no write — the
filesystem state it returns is exactly the one it was given; moreover, when
the input file is readable, the failure is precisely the explicit
configuration error (the raised `ValueError`). -/
theorem md_to_html_missing_dir_fails_without_write :
    ∀ (fs : FS) (p : PageParams), fs.outputDirExists = false →
      (md_to_html fs p).1 = fs ∧ (md_to_html fs p).2.isSome = true ∧
      (∀ text, fsLookup fs.inputFiles (input_folder ++ "/" ++ p.file) = some text →
        (md_to_html fs p).2 = some (RenderError.missingOutputDirectory output_folder)) := by
  intro fs p hD
  cases hL : fsLookup fs.inputFiles (input_folder ++ "/" ++ p.file) with
  | none => simp [md_to_html, hL]
  | some text => simp [md_to_html, hL, hD]

/-- Claim C1, witness for the amended theorem: a concrete state with the
input file present and the output directory absent. -/
theorem md_to_html_missing_dir_fails_without_write_witness :
    (md_to_html (FS.mk [("./knowledge/brokers.md", "# Hello\n\nWorld")] false [])
        (PageParams.mk "brokers.md" "Message Queue" "message queues")).1 =
      FS.mk [("./knowledge/brokers.md", "# Hello\n\nWorld")] false [] ∧
    (md_to_html (FS.mk [("./knowledge/brokers.md", "# Hello\n\nWorld")] false [])
        (PageParams.mk "brokers.md" "Message Queue" "message queues")).2 =
      some (RenderError.missingOutputDirectory output_folder) := by
  have h := md_to_html_missing_dir_fails_without_write
    (FS.mk [("./knowledge/brokers.md", "# Hello\n\nWorld")] false [])
    (PageParams.mk "brokers.md" "Message Queue" "message queues") rfl
  exact ⟨h.1, h.2.2 "# Hello\n\nWorld" rfl⟩

/-- Claim C2: for a page request whose file name ends in `.md`, the page is
written to `<outputDir>/<basename-without-md-extension>.html` — the output
filename is the input filename with the `.md` extension replaced by
`.html`. -/
theorem md_to_html_output_name_replaces_extension :
    ∀ (fs : FS) (p : PageParams) (b text : String),
      p.file = b ++ ".md" →
      fsLookup fs.inputFiles (input_folder ++ "/" ++ p.file) = some text →
      fs.outputDirExists = true →
      md_to_html fs p =
        ({ fs with outputFiles :=
             (output_folder ++ "/" ++ b ++ ".html",
              generate_page (md.render text) p.title p.description) :: fs.outputFiles },
         none) := by
  intro fs p b text hb hL hD
  rw [md_to_html_found fs p text hL hD, hb, sliceToMinus3_append_md]

/-- Claim C2, witness: the configured page `brokers.md` lands in
`./notes/brokers.html`. -/
theorem md_to_html_output_name_replaces_extension_witness :
    md_to_html (FS.mk [("./knowledge/brokers.md", "# Hello\n\nWorld")] true [])
        (PageParams.mk "brokers.md" "Message Queue" "message queues") =
      (FS.mk [("./knowledge/brokers.md", "# Hello\n\nWorld")] true
        [("./notes/" ++ "brokers" ++ ".html",
          generate_page (md.render "# Hello\n\nWorld") "Message Queue" "message queues")],
       none) := by
  exact md_to_html_output_name_replaces_extension
    (FS.mk [("./knowledge/brokers.md", "# Hello\n\nWorld")] true [])
    (PageParams.mk "brokers.md" "Message Queue" "message queues")
    "brokers" "# Hello\n\nWorld" rfl rfl rfl

set_option maxRecDepth 4000 in
/-- Claim C3: `generate_page` produces exactly the fixed template the spec
describes — a title element, a description meta tag, a viewport meta tag,
the stylesheet links `style/github-markdown.css` and `style/format.css` in
that order, and the fragment inside an `<article class="markdown-body">`
element — character for character (`specTemplate` is assembled from the
spec's enumerated parts). -/
theorem generate_page_matches_fixed_template :
    ∀ (html_text title description : String),
      generate_page html_text title description = specTemplate html_text title description := by
  intro h t d
  apply String.ext
  simp only [generate_page, specTemplate, titleElement, descriptionMeta, viewportMeta,
    stylesheetLink, articleWrap, String.data_append, List.append_assoc,
    List.cons_append, List.nil_append]

/-- Claim C4: rendering is deterministic.  Any two runs of `md_to_html`
that read the same Markdown text and carry the same title and description
write byte-identical content (both equal the pure function of the inputs),
regardless of the rest of the filesystem state. -/
theorem md_to_html_deterministic :
    ∀ (fs₁ fs₂ : FS) (p₁ p₂ : PageParams) (text : String),
      fsLookup fs₁.inputFiles (input_folder ++ "/" ++ p₁.file) = some text →
      fsLookup fs₂.inputFiles (input_folder ++ "/" ++ p₂.file) = some text →
      p₁.title = p₂.title →
      p₁.description = p₂.description →
      fs₁.outputDirExists = true →
      fs₂.outputDirExists = true →
      writtenFile fs₁ p₁ = some (generate_page (md.render text) p₁.title p₁.description) ∧
      writtenFile fs₁ p₁ = writtenFile fs₂ p₂ := by
  intro fs₁ fs₂ p₁ p₂ text hL₁ hL₂ ht hd hD₁ hD₂
  have e₁ := md_to_html_found fs₁ p₁ text hL₁ hD₁
  have e₂ := md_to_html_found fs₂ p₂ text hL₂ hD₂
  constructor
  · rw [writtenFile, e₁]
    exact fsLookup_cons_self _ _ _
  · rw [writtenFile, writtenFile, e₁, e₂]
    rw [fsLookup_cons_self, fsLookup_cons_self, ht, hd]

/-- Claim C4, witness: two runs from different filesystem states with the
same input text, title and description produce the same written bytes. -/
theorem md_to_html_deterministic_witness :
    writtenFile (FS.mk [("./knowledge/brokers.md", "# Hello\n\nWorld")] true [])
        (PageParams.mk "brokers.md" "Message Queue" "message queues") =
      some (generate_page (md.render "# Hello\n\nWorld") "Message Queue" "message queues") ∧
    writtenFile (FS.mk [("./knowledge/brokers.md", "# Hello\n\nWorld")] true [])
        (PageParams.mk "brokers.md" "Message Queue" "message queues") =
      writtenFile
        (FS.mk [("./knowledge/brokers.md", "# Hello\n\nWorld")] true
          [("./notes/old.html", "stale")])
        (PageParams.mk "brokers.md" "Message Queue" "message queues") := by
  exact md_to_html_deterministic
    (FS.mk [("./knowledge/brokers.md", "# Hello\n\nWorld")] true [])
    (FS.mk [("./knowledge/brokers.md", "# Hello\n\nWorld")] true
      [("./notes/old.html", "stale")])
    (PageParams.mk "brokers.md" "Message Queue" "message queues")
    (PageParams.mk "brokers.md" "Message Queue" "message queues")
    "# Hello\n\nWorld" rfl rfl rfl rfl rfl rfl

/-- Claim C5: end-to-end example.  Running the script (the hardcoded `files`
list, so `brokers.md` with title "Message Queue" and description "message
queues") against a filesystem where `./knowledge/brokers.md` contains
`# Hello\n\nWorld` and `./notes` exists succeeds and writes
`./notes/brokers.html` containing the fixed template with
`<title>Message Queue</title>`, the populated description meta tag, and
`<h1>Hello</h1>` followed by `<p>World</p>` inside the article element.
The markdown rendering step is the spec-modelled `MdConfig.render`. -/
theorem runMain_brokers_end_to_end :
    runMain (FS.mk [("./knowledge/brokers.md", "# Hello\n\nWorld")] true []) =
      (FS.mk [("./knowledge/brokers.md", "# Hello\n\nWorld")] true
        [("./notes/brokers.html",
          "<title>Message Queue</title>\n<meta name=\"description\" content=\"message queues\">\n<meta name=\"viewport\" content=\"width=device-width, initial-scale=1\">\n<link rel=\"stylesheet\" href=\"style/github-markdown.css\">\n<link rel=\"stylesheet\" href=\"style/format.css\">\n<article class=\"markdown-body\">\n<h1>Hello</h1>\n<p>World</p>\n\n</article>\n")],
       none) := by
  decide

/-- Claim C6: `generate_page` inserts the title and the description
verbatim: its output is the constant text `beforeTitle`, then the title
unchanged, then the constant text `betweenTitleAndDescription`, then the
description unchanged, then `afterDescription html_text`, which does not
depend on either string — so no character of title or description is
escaped, quoted or otherwise transformed. -/
theorem generate_page_inserts_title_description_verbatim :
    ∀ (html_text title description : String),
      generate_page html_text title description =
        beforeTitle ++ title ++ betweenTitleAndDescription ++ description
          ++ afterDescription html_text := by
  intro h t d
  apply String.ext
  simp only [generate_page, beforeTitle, betweenTitleAndDescription, afterDescription,
    String.data_append, List.append_assoc]

/-- Claim C7: the parser is built with the `table` rule explicitly enabled
(`.enable('table')`, line 32), while the `commonmark` base preset leaves it
off; with the rule enabled a pipe-delimited table renders as an HTML
`<table>` structure, and without it the same source stays a paragraph. The
rendering behaviour is the spec-modelled `MdConfig.render`. -/
theorem table_rule_enabled_renders_table :
    md.enabledRules.contains "table" = true ∧
    (MarkdownIt "commonmark" true true).enabledRules.contains "table" = false ∧
    md.render "| a | b |\n| --- | --- |\n| c | d |" =
      "<table>\n<thead>\n<tr>\n<th>a</th>\n<th>b</th>\n</tr>\n</thead>\n<tbody>\n<tr>\n<td>c</td>\n<td>d</td>\n</tr>\n</tbody>\n</table>\n" ∧
    (MarkdownIt "commonmark" true true).render "| a | b |\n| --- | --- |\n| c | d |" =
      "<p>| a | b |<br>\n| --- | --- |<br>\n| c | d |</p>\n" := by
  refine ⟨rfl, rfl, ?_, ?_⟩ <;> decide

/-- Claim C9: the output filename is computed by unconditionally dropping
the last three characters of the input filename (`file[:-3]`) and appending
`.html`; for the non-`.md` name `notes.txt` this yields `notes..html`, not
an extension replacement. -/
theorem output_name_unconditionally_drops_three :
    (∀ (fs : FS) (p : PageParams) (text : String),
      fsLookup fs.inputFiles (input_folder ++ "/" ++ p.file) = some text →
      fs.outputDirExists = true →
      md_to_html fs p =
        ({ fs with outputFiles :=
             (output_folder ++ "/"
                ++ (String.mk (p.file.data.take (p.file.data.length - 3))) ++ ".html",
              generate_page (md.render text) p.title p.description) :: fs.outputFiles },
         none)) ∧
    sliceToMinus3 "notes.txt" = "notes." ∧
    output_folder ++ "/" ++ sliceToMinus3 "notes.txt" ++ ".html" = "./notes/notes..html" := by
  refine ⟨?_, rfl, rfl⟩
  intro fs p text hL hD
  exact md_to_html_found fs p text hL hD

/-- Claim C9, witness: rendering a configured file named `notes.txt` writes
`./notes/notes..html`. -/
theorem output_name_unconditionally_drops_three_witness :
    md_to_html (FS.mk [("./knowledge/notes.txt", "hi")] true [])
        (PageParams.mk "notes.txt" "T" "D") =
      (FS.mk [("./knowledge/notes.txt", "hi")] true
        [("./notes/notes..html", generate_page (md.render "hi") "T" "D")],
       none) := by
  have h := output_name_unconditionally_drops_three.1
    (FS.mk [("./knowledge/notes.txt", "hi")] true [])
    (PageParams.mk "notes.txt" "T" "D") "hi" rfl rfl
  simpa using h

/-- Claim C10: `md_to_html` reads the input file (line 25) before checking
the output directory (line 38), so with the input file missing the call
fails with the input-read error even when the output directory is missing
too — the directory check is not the first action. -/
theorem input_read_precedes_output_dir_check :
    ∀ (fs : FS) (p : PageParams),
      fsLookup fs.inputFiles (input_folder ++ "/" ++ p.file) = none →
      fs.outputDirExists = false →
      md_to_html fs p =
        (fs, some (RenderError.missingInputFile (input_folder ++ "/" ++ p.file))) := by
  intro fs p hL _
  simp [md_to_html, hL]

/-- Claim C10, witness: a state with neither the input file nor the output
directory, where the failure is the input-read error. -/
theorem input_read_precedes_output_dir_check_witness :
    md_to_html (FS.mk [] false []) (PageParams.mk "ghost.md" "T" "D") =
      (FS.mk [] false [],
       some (RenderError.missingInputFile (input_folder ++ "/" ++ "ghost.md"))) := by
  exact input_read_precedes_output_dir_check
    (FS.mk [] false []) (PageParams.mk "ghost.md" "T" "D") rfl rfl

end SiteGen

namespace Rewriter

/-- Claim C8, counterexample: the rewriter is not idempotent on every text.
On the nested reference `![a](static/![b](static/c))` the first pass yields
`![a](/![b](static/c))`; a second pass matches again (the lazy alt group
backtracks across `](/`) and yields `![a](/![b](/c))`, so
`rewrite (rewrite t)` differs from `rewrite t`. -/
theorem rewrite_not_idempotent_counterexample :
    rewriteImagePaths "![a](static/![b](static/c))" = "![a](/![b](static/c))" ∧
    rewriteImagePaths (rewriteImagePaths "![a](static/![b](static/c))") = "![a](/![b](/c))" ∧
    rewriteImagePaths (rewriteImagePaths "![a](static/![b](static/c))") ≠
      rewriteImagePaths "![a](static/![b](static/c))" := by
  refine ⟨?_, ?_, ?_⟩ <;> decide

/-- Claim C8, amended: the image reference `![alt](static/foo/bar.png)` is
rewritten to `![alt](/foo/bar.png)` (the `static/` prefixed path becomes a
root-relative one), the already-rewritten text is left unchanged by a
second pass, and in general a second pass is the identity whenever the
rewritten text contains no further pattern match — though not for every
text (nested references defeat it, see the counterexample). -/
theorem rewrite_static_example_roundtrip :
    rewriteImagePaths "![alt](static/foo/bar.png)" = "![alt](/foo/bar.png)" ∧
    rewriteImagePaths "![alt](/foo/bar.png)" = "![alt](/foo/bar.png)" ∧
    (∀ t : String, hasImageMatch (rewriteImagePaths t).data = false →
      rewriteImagePaths (rewriteImagePaths t) = rewriteImagePaths t) := by
  refine ⟨by decide, by decide, ?_⟩
  intro t h
  exact rewrite_of_no_match (rewriteImagePaths t) h

/-- Claim C8, witness for the amended theorem at the spec's example. -/
theorem rewrite_static_example_roundtrip_witness :
    rewriteImagePaths (rewriteImagePaths "![alt](static/foo/bar.png)") =
      rewriteImagePaths "![alt](static/foo/bar.png)" := by
  exact rewrite_static_example_roundtrip.2.2 "![alt](static/foo/bar.png)" (by decide)

end Rewriter
